import Mathlib

/-!
Shallow embedding of the netcup CCP DNS API client
(`client` package, terraform-provider-netcupdns).

The client keeps a per-domain record cache and talks to a remote JSON API
through `doRequest`. Here `doRequest`'s outcome for the (at most one)
request an operation issues is passed in explicitly as
`Except TransportError (Option ρ)`: `.error e` is a transport failure
(network error or a non-200 HTTP status), `.ok none` is an HTTP-200 body
that does not decode as the expected response type, and `.ok (some res)`
is an HTTP-200 body decoding to `res`. Each operation returns, besides
its result, the updated client state and the list of requests it issued,
so that transport-call counts and request payloads can be stated.
-/

namespace NetcupDns

/-- The `DnsRecord` struct of the `client` package (models file):
identifier, hostname, record type, priority, destination, deletion
flag, state marker. -/
structure DnsRecord where
  Id : String
  Hostname : String
  «Type» : String
  Priority : String
  Destination : String
  DeleteRecord : Bool
  State : String
  deriving DecidableEq, Repr

/-- The `NewDnsRecord` struct of the `client` package (models file):
the identifier-less precursor used for creation requests (hostname,
type, priority, destination). -/
structure NewDnsRecord where
  Hostname : String
  «Type» : String
  Priority : String
  Destination : String
  deriving DecidableEq, Repr

/-- The `DnsRecordSet` struct of the `client` package (models file): a
record-set payload wrapping a list of `DnsRecord`. -/
structure DnsRecordSet where
  DnsRecords : List DnsRecord
  deriving DecidableEq, Repr

/-- The `NewDnsRecordSet` struct of the `client` package (models file):
a record-set payload wrapping a list of `NewDnsRecord` (creation
requests). -/
structure NewDnsRecordSet where
  DnsRecords : List NewDnsRecord
  deriving DecidableEq, Repr

/-- The common response envelope (`ResponseBody` in `client.go`). -/
structure ResponseBody where
  ServerRequestId : String
  Action : String
  Status : String
  StatusCode : Int
  ShortMessage : String
  LongMessage : String
  deriving DecidableEq, Repr

/-- `SessionData`: the payload of a login response. -/
structure SessionData where
  SessionId : String
  deriving DecidableEq, Repr

/-- `LoginResponse`: envelope plus session payload. -/
structure LoginResponse extends ResponseBody where
  ResponseData : SessionData
  deriving DecidableEq, Repr

/-- `DnsRecordsResponse`: envelope plus a record set payload. -/
structure DnsRecordsResponse extends ResponseBody where
  ResponseData : DnsRecordSet
  deriving DecidableEq, Repr

/-- `AuthData`: the (customer number, API key, session id) triple sent
with every authenticated request. -/
structure AuthData where
  CustomerNumber : String
  APIKey : String
  SessionId : String
  deriving DecidableEq, Repr

/-- `LoginData`: the three credentials sent with the `login` action. -/
structure LoginData where
  CustomerNumber : String
  APIKey : String
  APIPassword : String
  deriving DecidableEq, Repr

/-- A transport-level failure of `doRequest`: a non-200 HTTP status
(carrying status and body) or a network error. -/
inductive TransportError where
  | httpStatus (status : Int) (body : String)
  | network (msg : String)
  deriving DecidableEq, Repr

/-- The errors the client returns (each mirrors one `error` value built
in `client.go`). -/
inductive ClientError where
  /-- a `doRequest` failure surfaced unchanged -/
  | transportError (e : TransportError)
  /-- `json.Unmarshal` failure on a response body -/
  | decodeError
  /-- `GetDnsRecordById`: could not find DNS record with ID … for domain … -/
  | notFound (id domainName : String)
  /-- `findRecordById`: could not find DNS record with ID … -/
  | recordNotFound (id : String)
  /-- `findNewRecord`: could not retrieve newly created DNS record -/
  | newRecordNotFound
  deriving DecidableEq, Repr

/-- The parameter object of a request (`Param` field of `RequestBody`). -/
inductive RequestParam where
  | loginData (d : LoginData)
  /-- `DomainInfoRequest`: auth plus domain name -/
  | domainInfo (auth : AuthData) (domainName : String)
  /-- `CreateDnsRecordsRequest`: auth, domain, a `NewDnsRecordSet` -/
  | createRecords (auth : AuthData) (domainName : String) (s : NewDnsRecordSet)
  /-- `UpdateDnsRecordsRequest`: auth, domain, a `DnsRecordSet` -/
  | updateRecords (auth : AuthData) (domainName : String) (s : DnsRecordSet)
  deriving DecidableEq, Repr

/-- `RequestBody`: the `{action, param}` object serialized for one
`doRequest` call. -/
structure RequestBody where
  Action : String
  Param : RequestParam
  deriving DecidableEq, Repr

/-- The client state: auth triple, user agent, and the per-domain record
cache `DnsRecordsByDomain` (a map from domain name to cached list;
`none` means no entry). The Go struct's `httpClient` is part of the
transport and is abstracted by the transport-outcome argument of each
operation. -/
structure CCPClient where
  hostURL : String
  authData : AuthData
  UserAgent : String
  DnsRecordsByDomain : String → Option (List DnsRecord)

/-- Outcome of one client operation: its result, the new client state,
and the requests issued to the transport (in order). -/
structure OpResult (α : Type) where
  result : Except ClientError α
  client : CCPClient
  requests : List RequestBody

/-- `NewDnsRecord.Matches` from `client.go`: hostname, type and
destination must be equal, and priority must be equal as well whenever
the precursor's priority is non-empty. -/
def NewDnsRecord.Matches (r : NewDnsRecord) (r2 : DnsRecord) : Bool :=
  let isMatch := r.Hostname == r2.Hostname && r.«Type» == r2.«Type» &&
    r.Destination == r2.Destination
  if r.Priority != "" then
    isMatch && (r.Priority == r2.Priority)
  else
    isMatch

/-- `findRecordById` from `client.go`: first record whose `Id` equals
`id`, else the could-not-find error. -/
def findRecordById : List DnsRecord → String → Except ClientError DnsRecord
  | [], id => .error (.recordNotFound id)
  | record :: rest, id =>
    if record.Id == id then .ok record else findRecordById rest id

/-- `findNewRecord` from `client.go`: first record matched by
`requestedRecord.Matches`, else the could-not-retrieve error. -/
def findNewRecord : List DnsRecord → NewDnsRecord → Except ClientError DnsRecord
  | [], _ => .error .newRecordNotFound
  | record :: rest, requestedRecord =>
    if requestedRecord.Matches record then .ok record
    else findNewRecord rest requestedRecord

/-- Remove the cache entry for `domainName`
(`delete(c.DnsRecordsByDomain, domainName)`). -/
def CCPClient.invalidate (c : CCPClient) (domainName : String) : CCPClient :=
  { c with DnsRecordsByDomain := fun d =>
      if d = domainName then none else c.DnsRecordsByDomain d }

/-- Store `records` under `domainName`
(`c.DnsRecordsByDomain[domainName] = records`). -/
def CCPClient.store (c : CCPClient) (domainName : String)
    (records : List DnsRecord) : CCPClient :=
  { c with DnsRecordsByDomain := fun d =>
      if d = domainName then some records else c.DnsRecordsByDomain d }

/-- `GetDnsRecords` from `client.go`: return the cached list when
present; otherwise issue one `infoDnsRecords` request, decode the
response into a `DnsRecordsResponse`, cache its record list under the
domain and return it. -/
def CCPClient.GetDnsRecords (c : CCPClient) (domainName : String)
    (tr : Except TransportError (Option DnsRecordsResponse)) :
    OpResult (List DnsRecord) :=
  match c.DnsRecordsByDomain domainName with
  | some records => ⟨.ok records, c, []⟩
  | none =>
    let req : RequestBody :=
      ⟨"infoDnsRecords", .domainInfo c.authData domainName⟩
    match tr with
    | .error e => ⟨.error (.transportError e), c, [req]⟩
    | .ok none => ⟨.error .decodeError, c, [req]⟩
    | .ok (some res) =>
      ⟨.ok res.ResponseData.DnsRecords,
        c.store domainName res.ResponseData.DnsRecords, [req]⟩

/-- `GetDnsRecordById` from `client.go`: `GetDnsRecords`, then a linear
scan for the first record with the given id; the could-not-find error
(carrying id and domain) when absent. -/
def CCPClient.GetDnsRecordById (c : CCPClient) (domainName id : String)
    (tr : Except TransportError (Option DnsRecordsResponse)) :
    OpResult DnsRecord :=
  let g := c.GetDnsRecords domainName tr
  match g.result with
  | .error e => ⟨.error e, g.client, g.requests⟩
  | .ok records =>
    match records.find? (fun record => record.Id == id) with
    | some record => ⟨.ok record, g.client, g.requests⟩
    | none => ⟨.error (.notFound id domainName), g.client, g.requests⟩

/-- `CreateDnsRecord` from `client.go`: flush the domain's cache entry,
issue one `updateDnsRecords` request whose set holds exactly the one
precursor, decode the response, and locate the new record with
`findNewRecord`. -/
def CCPClient.CreateDnsRecord (c : CCPClient) (domainName : String)
    (record : NewDnsRecord)
    (tr : Except TransportError (Option DnsRecordsResponse)) :
    OpResult DnsRecord :=
  let c1 := c.invalidate domainName
  let req : RequestBody :=
    ⟨"updateDnsRecords",
      .createRecords c1.authData domainName ⟨[record]⟩⟩
  match tr with
  | .error e => ⟨.error (.transportError e), c1, [req]⟩
  | .ok none => ⟨.error .decodeError, c1, [req]⟩
  | .ok (some res) =>
    match findNewRecord res.ResponseData.DnsRecords record with
    | .ok newRecord => ⟨.ok newRecord, c1, [req]⟩
    | .error e => ⟨.error e, c1, [req]⟩

/-- `UpdateDnsRecord` from `client.go`: flush the domain's cache entry,
issue one `updateDnsRecords` request whose set holds exactly the given
record, decode the response, and locate the result with
`findRecordById` on the input record's id. -/
def CCPClient.UpdateDnsRecord (c : CCPClient) (domainName : String)
    (record : DnsRecord)
    (tr : Except TransportError (Option DnsRecordsResponse)) :
    OpResult DnsRecord :=
  let c1 := c.invalidate domainName
  let req : RequestBody :=
    ⟨"updateDnsRecords",
      .updateRecords c1.authData domainName ⟨[record]⟩⟩
  match tr with
  | .error e => ⟨.error (.transportError e), c1, [req]⟩
  | .ok none => ⟨.error .decodeError, c1, [req]⟩
  | .ok (some res) =>
    match findRecordById res.ResponseData.DnsRecords record.Id with
    | .ok newRecord => ⟨.ok newRecord, c1, [req]⟩
    | .error e => ⟨.error e, c1, [req]⟩

/-- `DeleteDnsRecord` from `client.go`: flush the domain's cache entry,
clone the record with `DeleteRecord` set true, issue one
`updateDnsRecords` request carrying that clone; the response body is
printed but never decoded, so the call succeeds whenever `doRequest`
does. -/
def CCPClient.DeleteDnsRecord (c : CCPClient) (domainName : String)
    (record : DnsRecord)
    (tr : Except TransportError (Option DnsRecordsResponse)) :
    OpResult Unit :=
  let c1 := c.invalidate domainName
  let deleteRecord : DnsRecord := { record with DeleteRecord := true }
  let req : RequestBody :=
    ⟨"updateDnsRecords",
      .updateRecords c1.authData domainName ⟨[deleteRecord]⟩⟩
  match tr with
  | .error e => ⟨.error (.transportError e), c1, [req]⟩
  | .ok _ => ⟨.ok (), c1, [req]⟩

/-- `login` from `client.go`: issue one `login` request and decode the
body into a `LoginResponse`. The Go code overwrites `doRequest`'s error
with `json.Unmarshal`'s before checking it, so a transport failure
leaves a nil body, which never decodes: the outcome is decided by
decoding alone, and a transport failure surfaces as the decode error.
On success the auth triple (customer number, API key, decoded session
id) is stored. -/
def CCPClient.login (c : CCPClient)
    (customerNumber apiKey apiPassword : String)
    (tr : Except TransportError (Option LoginResponse)) : OpResult Unit :=
  let req : RequestBody :=
    ⟨"login", .loginData ⟨customerNumber, apiKey, apiPassword⟩⟩
  let decoded : Option LoginResponse :=
    match tr with
    | .error _ => none
    | .ok ob => ob
  match decoded with
  | none => ⟨.error .decodeError, c, [req]⟩
  | some res =>
    ⟨.ok (),
      { c with authData :=
          ⟨customerNumber, apiKey, res.ResponseData.SessionId⟩ }, [req]⟩

/-- `HostURL` from `client.go`. -/
def HostURL : String :=
  "https://ccp.netcup.net/run/webservice/servers/endpoint.php?JSON"

/-- `NewCCPClient` from `client.go`: build a zero-valued client, log in,
and return the client only when login succeeded. -/
def NewCCPClient (customerNumber apiKey apiPassword : String)
    (tr : Except TransportError (Option LoginResponse)) :
    Except ClientError CCPClient :=
  let c : CCPClient :=
    { hostURL := HostURL
      authData := ⟨"", "", ""⟩
      UserAgent := ""
      DnsRecordsByDomain := fun _ => none }
  let r := c.login customerNumber apiKey apiPassword tr
  match r.result with
  | .error e => .error e
  | .ok _ => .ok r.client

/-- A sample record for concrete runs. -/
def sampleRecord : DnsRecord := ⟨"101", "www", "A", "", "1.2.3.4", false, "yes"⟩

/-- A second sample record with a different id. -/
def sampleRecord2 : DnsRecord := ⟨"202", "mail", "MX", "10", "mx.example.com", false, "yes"⟩

/-- A sample auth triple. -/
def sampleAuth : AuthData := ⟨"12345", "key", "sess"⟩

/-- A client with an empty cache. -/
def emptyClient : CCPClient := ⟨HostURL, sampleAuth, "", fun _ => none⟩

/-- A sample success envelope. -/
def okBody : ResponseBody := ⟨"rid", "infoDnsRecords", "success", 2000, "", ""⟩

/-- A sample error envelope (non-success status and statuscode). -/
def errBody : ResponseBody := ⟨"rid", "infoDnsRecords", "error", 4013, "denied", ""⟩

/-! ### Helper lemmas -/

/-- A cache hit leaves the client untouched, issues no request and
returns the cached list. -/
theorem getDnsRecords_cache_hit (c : CCPClient) (domainName : String)
    (records : List DnsRecord)
    (tr : Except TransportError (Option DnsRecordsResponse))
    (h : c.DnsRecordsByDomain domainName = some records) :
    c.GetDnsRecords domainName tr = ⟨.ok records, c, []⟩ := by
  unfold CCPClient.GetDnsRecords
  rw [h]

/-- A cache miss with a decodable response returns the decoded list,
stores it, and issues one request. -/
theorem getDnsRecords_cache_miss_ok (c : CCPClient) (domainName : String)
    (res : DnsRecordsResponse)
    (h : c.DnsRecordsByDomain domainName = none) :
    c.GetDnsRecords domainName (.ok (some res)) =
      ⟨.ok res.ResponseData.DnsRecords,
        c.store domainName res.ResponseData.DnsRecords,
        [⟨"infoDnsRecords", .domainInfo c.authData domainName⟩]⟩ := by
  unfold CCPClient.GetDnsRecords
  rw [h]

/-- A cache miss issues exactly one request, whatever the transport
outcome. -/
theorem getDnsRecords_cache_miss_one_request (c : CCPClient)
    (domainName : String)
    (tr : Except TransportError (Option DnsRecordsResponse))
    (h : c.DnsRecordsByDomain domainName = none) :
    (c.GetDnsRecords domainName tr).requests.length = 1 := by
  unfold CCPClient.GetDnsRecords
  rw [h]
  rcases tr with e | ob
  · rfl
  · rcases ob with _ | res <;> rfl

/-- Storing under a domain makes its entry that list. -/
theorem store_self (c : CCPClient) (domainName : String)
    (records : List DnsRecord) :
    (c.store domainName records).DnsRecordsByDomain domainName =
      some records := by
  simp [CCPClient.store]

/-- Invalidating a domain removes its entry. -/
theorem invalidate_self (c : CCPClient) (domainName : String) :
    (c.invalidate domainName).DnsRecordsByDomain domainName = none := by
  simp [CCPClient.invalidate]

/-- `CreateDnsRecord` always leaves the client with the domain's cache
entry flushed, in every branch. -/
theorem createDnsRecord_client (c : CCPClient) (domainName : String)
    (n : NewDnsRecord)
    (tr : Except TransportError (Option DnsRecordsResponse)) :
    (c.CreateDnsRecord domainName n tr).client = c.invalidate domainName := by
  unfold CCPClient.CreateDnsRecord
  split
  · rfl
  · rfl
  · split <;> rfl

/-- `UpdateDnsRecord` always leaves the client with the domain's cache
entry flushed, in every branch. -/
theorem updateDnsRecord_client (c : CCPClient) (domainName : String)
    (r : DnsRecord)
    (tr : Except TransportError (Option DnsRecordsResponse)) :
    (c.UpdateDnsRecord domainName r tr).client = c.invalidate domainName := by
  unfold CCPClient.UpdateDnsRecord
  split
  · rfl
  · rfl
  · split <;> rfl

/-- `DeleteDnsRecord` always leaves the client with the domain's cache
entry flushed, in every branch. -/
theorem deleteDnsRecord_client (c : CCPClient) (domainName : String)
    (r : DnsRecord)
    (tr : Except TransportError (Option DnsRecordsResponse)) :
    (c.DeleteDnsRecord domainName r tr).client = c.invalidate domainName := by
  unfold CCPClient.DeleteDnsRecord
  rcases tr with e | ob <;> rfl

/-- `findNewRecord` is the first-match scan: it agrees with `List.find?`
on the match predicate. -/
theorem findNewRecord_eq_find? (l : List DnsRecord) (n : NewDnsRecord) :
    findNewRecord l n =
      match l.find? (fun r => n.Matches r) with
      | some r => Except.ok r
      | none => Except.error ClientError.newRecordNotFound := by
  induction l with
  | nil => rfl
  | cons a t ih =>
    by_cases h : n.Matches a
    · simp [findNewRecord, List.find?_cons, h]
    · simp only [Bool.not_eq_true] at h
      simp [findNewRecord, List.find?_cons, h, ih]

/-- `findRecordById` is the first-match scan: it agrees with
`List.find?` on id equality. -/
theorem findRecordById_eq_find? (l : List DnsRecord) (id : String) :
    findRecordById l id =
      match l.find? (fun r => r.Id == id) with
      | some r => Except.ok r
      | none => Except.error (ClientError.recordNotFound id) := by
  induction l with
  | nil => rfl
  | cons a t ih =>
    by_cases h : a.Id == id
    · simp [findRecordById, List.find?_cons, h]
    · simp only [Bool.not_eq_true] at h
      simp [findRecordById, List.find?_cons, h, ih]

/-- The boolean `Matches` unfolded to a propositional characterization. -/
theorem matches_iff (n : NewDnsRecord) (r2 : DnsRecord) :
    n.Matches r2 = true ↔
      (n.Hostname = r2.Hostname ∧ n.«Type» = r2.«Type» ∧
        n.Destination = r2.Destination ∧
        (n.Priority ≠ "" → n.Priority = r2.Priority)) := by
  by_cases hp : n.Priority = "" <;>
    simp [NewDnsRecord.Matches, hp, and_assoc]

/-! ### Claims -/

/-- C2: structural matching of the precursor against a returned record
holds exactly when hostname, type and destination are equal, with
priority compared as well exactly when the precursor's priority is
non-empty; on a decodable response, `CreateDnsRecord` returns the first
record in response order for which the match holds. -/
theorem C2_create_returns_first_structural_match
    (n : NewDnsRecord) (r2 : DnsRecord) (c : CCPClient)
    (domainName : String) (res : DnsRecordsResponse) :
    (n.Matches r2 = true ↔
      (n.Hostname = r2.Hostname ∧ n.«Type» = r2.«Type» ∧
        n.Destination = r2.Destination ∧
        (n.Priority ≠ "" → n.Priority = r2.Priority))) ∧
    ((c.CreateDnsRecord domainName n (.ok (some res))).result =
      match res.ResponseData.DnsRecords.find? (fun r => n.Matches r) with
      | some r => Except.ok r
      | none => Except.error ClientError.newRecordNotFound) := by
  refine ⟨matches_iff n r2, ?_⟩
  simp only [CCPClient.CreateDnsRecord, findNewRecord_eq_find?]
  cases res.ResponseData.DnsRecords.find? (fun r => n.Matches r) <;> rfl

/-- C2 witness: a concrete run on a two-record response, where the
match ignores priority (empty precursor priority) and picks the
first record in response order. -/
theorem C2_create_returns_first_structural_match_witness :
    (CCPClient.CreateDnsRecord
        ⟨HostURL, ⟨"c", "k", "s"⟩, "", fun _ => none⟩ "example.org"
        ⟨"www", "A", "", "1.2.3.4"⟩
        (.ok (some ⟨⟨"rid", "updateDnsRecords", "success", 2000, "", ""⟩,
          ⟨[⟨"7", "mail", "MX", "10", "mx.example.org", false, "yes"⟩,
            ⟨"8", "www", "A", "20", "1.2.3.4", false, "yes"⟩]⟩⟩))).result =
      Except.ok ⟨"8", "www", "A", "20", "1.2.3.4", false, "yes"⟩ := by
  have h := (C2_create_returns_first_structural_match
    ⟨"www", "A", "", "1.2.3.4"⟩
    ⟨"8", "www", "A", "20", "1.2.3.4", false, "yes"⟩
    ⟨HostURL, ⟨"c", "k", "s"⟩, "", fun _ => none⟩ "example.org"
    ⟨⟨"rid", "updateDnsRecords", "success", 2000, "", ""⟩,
      ⟨[⟨"7", "mail", "MX", "10", "mx.example.org", false, "yes"⟩,
        ⟨"8", "www", "A", "20", "1.2.3.4", false, "yes"⟩]⟩⟩).2
  rw [h]
  rfl

/-- C1 counterexample: a response holding two records that both
structurally match the precursor does not make `CreateDnsRecord` fail;
it returns the first candidate. -/
theorem C1_two_matches_counterexample :
    (CCPClient.CreateDnsRecord
        ⟨HostURL, ⟨"c", "k", "s"⟩, "", fun _ => none⟩ "example.com"
        ⟨"@", "A", "", "1.2.3.4"⟩
        (.ok (some ⟨⟨"rid", "updateDnsRecords", "success", 2000, "", ""⟩,
          ⟨[⟨"101", "@", "A", "", "1.2.3.4", false, "yes"⟩,
            ⟨"102", "@", "A", "", "1.2.3.4", false, "yes"⟩]⟩⟩))).result =
      Except.ok ⟨"101", "@", "A", "", "1.2.3.4", false, "yes"⟩ := by
  rfl

/-- C1 (amended): on a decodable response, `CreateDnsRecord` fails with
the record-not-found error exactly when no returned record structurally
matches the precursor; when one or more records match (two or more
included), the first match in response order is returned instead of an
error. -/
theorem C1_not_found_iff_zero_matches
    (c : CCPClient) (domainName : String) (n : NewDnsRecord)
    (res : DnsRecordsResponse) :
    ((c.CreateDnsRecord domainName n (.ok (some res))).result =
        Except.error ClientError.newRecordNotFound ↔
      ∀ r ∈ res.ResponseData.DnsRecords, n.Matches r = false) ∧
    (∀ d, res.ResponseData.DnsRecords.find? (fun r => n.Matches r) = some d →
      (c.CreateDnsRecord domainName n (.ok (some res))).result =
        Except.ok d) := by
  simp only [CCPClient.CreateDnsRecord, findNewRecord_eq_find?]
  constructor
  · cases h : res.ResponseData.DnsRecords.find? (fun r => n.Matches r) with
    | none =>
      simp only [List.find?_eq_none, Bool.not_eq_true] at h
      simpa using h
    | some d =>
      have hd := List.find?_some h
      constructor
      · intro he
        exact absurd he (by simp)
      · intro hall
        have := hall d (List.mem_of_find?_eq_some h)
        rw [this] at hd
        exact absurd hd (by simp)
  · intro d hd
    rw [hd]

/-- C1 witness for the amended claim: with two structurally matching
records in the response, the first is returned. -/
theorem C1_not_found_iff_zero_matches_witness :
    (CCPClient.CreateDnsRecord
        ⟨HostURL, ⟨"c", "k", "s"⟩, "", fun _ => none⟩ "example.net"
        ⟨"ftp", "A", "", "5.6.7.8"⟩
        (.ok (some ⟨⟨"rid", "updateDnsRecords", "error", 4013, "", ""⟩,
          ⟨[⟨"1", "ftp", "A", "", "5.6.7.8", false, "yes"⟩,
            ⟨"2", "ftp", "A", "", "5.6.7.8", false, "yes"⟩]⟩⟩))).result =
      Except.ok ⟨"1", "ftp", "A", "", "5.6.7.8", false, "yes"⟩ := by
  exact (C1_not_found_iff_zero_matches
    ⟨HostURL, ⟨"c", "k", "s"⟩, "", fun _ => none⟩ "example.net"
    ⟨"ftp", "A", "", "5.6.7.8"⟩
    ⟨⟨"rid", "updateDnsRecords", "error", 4013, "", ""⟩,
      ⟨[⟨"1", "ftp", "A", "", "5.6.7.8", false, "yes"⟩,
        ⟨"2", "ftp", "A", "", "5.6.7.8", false, "yes"⟩]⟩⟩).2
    ⟨"1", "ftp", "A", "", "5.6.7.8", false, "yes"⟩ (by rfl)

/-- C3: with a cache entry for the domain, `GetDnsRecords` issues no
request, leaves the client unchanged and returns exactly the cached
list; with no entry it issues exactly one request and, when the
response decodes, stores the decoded list under the domain and returns
it, so a second call (whatever its transport outcome) issues no further
request and returns the identical list. -/
theorem C3_get_records_cache (c : CCPClient) (domainName : String) :
    (∀ records tr, c.DnsRecordsByDomain domainName = some records →
      (c.GetDnsRecords domainName tr).result = Except.ok records ∧
      (c.GetDnsRecords domainName tr).client = c ∧
      (c.GetDnsRecords domainName tr).requests = []) ∧
    (∀ tr, c.DnsRecordsByDomain domainName = none →
      (c.GetDnsRecords domainName tr).requests.length = 1) ∧
    (∀ res, c.DnsRecordsByDomain domainName = none →
      (c.GetDnsRecords domainName (.ok (some res))).result =
        Except.ok res.ResponseData.DnsRecords ∧
      (c.GetDnsRecords domainName (.ok (some res))).client.DnsRecordsByDomain
          domainName = some res.ResponseData.DnsRecords ∧
      (∀ tr2,
        ((c.GetDnsRecords domainName (.ok (some res))).client.GetDnsRecords
            domainName tr2).result = Except.ok res.ResponseData.DnsRecords ∧
        ((c.GetDnsRecords domainName (.ok (some res))).client.GetDnsRecords
            domainName tr2).requests = [])) := by
  refine ⟨fun records tr h => ?_,
    fun tr h => getDnsRecords_cache_miss_one_request c domainName tr h,
    fun res h => ?_⟩
  · rw [getDnsRecords_cache_hit c domainName records tr h]
    exact ⟨rfl, rfl, rfl⟩
  · rw [getDnsRecords_cache_miss_ok c domainName res h]
    refine ⟨rfl, store_self .., fun tr2 => ?_⟩
    rw [getDnsRecords_cache_hit _ _ _ tr2 (store_self ..)]
    exact ⟨rfl, rfl⟩

/-- C3 witness: a concrete cache-miss fetch followed by a second call
whose transport would fail; the second call still returns the same
list from the cache without issuing a request. -/
theorem C3_get_records_cache_witness :
    (emptyClient.GetDnsRecords "example.com"
        (.ok (some ⟨okBody, ⟨[sampleRecord]⟩⟩))).result =
      Except.ok [sampleRecord] ∧
    ((emptyClient.GetDnsRecords "example.com"
        (.ok (some ⟨okBody, ⟨[sampleRecord]⟩⟩))).client.GetDnsRecords
        "example.com" (.error (.network "down"))).result =
      Except.ok [sampleRecord] ∧
    ((emptyClient.GetDnsRecords "example.com"
        (.ok (some ⟨okBody, ⟨[sampleRecord]⟩⟩))).client.GetDnsRecords
        "example.com" (.error (.network "down"))).requests = [] := by
  have h := (C3_get_records_cache emptyClient "example.com").2.2
    ⟨okBody, ⟨[sampleRecord]⟩⟩ (by rfl)
  exact ⟨h.1, (h.2.2 (.error (.network "down"))).1,
    (h.2.2 (.error (.network "down"))).2⟩

/-- C4: each mutating operation leaves the domain's cache entry absent
in every branch (transport failures included), so a following
`GetDnsRecords` on the same domain finds no entry and issues exactly
one fresh request. -/
theorem C4_mutations_flush_cache (c : CCPClient) (domainName : String)
    (n : NewDnsRecord) (r : DnsRecord)
    (tr tr2 : Except TransportError (Option DnsRecordsResponse)) :
    ((c.CreateDnsRecord domainName n tr).client.DnsRecordsByDomain
        domainName = none ∧
      ((c.CreateDnsRecord domainName n tr).client.GetDnsRecords domainName
          tr2).requests.length = 1) ∧
    ((c.UpdateDnsRecord domainName r tr).client.DnsRecordsByDomain
        domainName = none ∧
      ((c.UpdateDnsRecord domainName r tr).client.GetDnsRecords domainName
          tr2).requests.length = 1) ∧
    ((c.DeleteDnsRecord domainName r tr).client.DnsRecordsByDomain
        domainName = none ∧
      ((c.DeleteDnsRecord domainName r tr).client.GetDnsRecords domainName
          tr2).requests.length = 1) := by
  rw [createDnsRecord_client, updateDnsRecord_client, deleteDnsRecord_client]
  have hnone := invalidate_self c domainName
  exact ⟨⟨hnone, getDnsRecords_cache_miss_one_request _ _ tr2 hnone⟩,
    ⟨hnone, getDnsRecords_cache_miss_one_request _ _ tr2 hnone⟩,
    ⟨hnone, getDnsRecords_cache_miss_one_request _ _ tr2 hnone⟩⟩

/-- C5: whenever `GetDnsRecords` returns a list, `GetDnsRecordById`
returns its first record with the given id, and the not-found error
(carrying id and domain) exactly when no record in that list has the
id; with a cache entry present the call issues no request. -/
theorem C5_get_by_id (c : CCPClient) (domainName id : String)
    (tr : Except TransportError (Option DnsRecordsResponse)) :
    (∀ l, (c.GetDnsRecords domainName tr).result = Except.ok l →
      (c.GetDnsRecordById domainName id tr).result =
        match l.find? (fun r => r.Id == id) with
        | some r => Except.ok r
        | none => Except.error (ClientError.notFound id domainName)) ∧
    (∀ records, c.DnsRecordsByDomain domainName = some records →
      (c.GetDnsRecordById domainName id tr).requests = []) := by
  constructor
  · intro l h
    simp only [CCPClient.GetDnsRecordById, h]
    cases hf : l.find? (fun r => r.Id == id) <;> simp [hf]
  · intro records h
    have hg := getDnsRecords_cache_hit c domainName records tr h
    simp only [CCPClient.GetDnsRecordById, hg]
    cases hf : records.find? (fun r => r.Id == id) <;> simp [hf]

/-- C5 witness: against a cached one-record list not containing id
`999`, the lookup fails with the not-found error and issues no request
even though the transport would fail. -/
theorem C5_get_by_id_witness :
    ((emptyClient.store "example.com" [sampleRecord]).GetDnsRecordById
        "example.com" "999" (.error (.network "down"))).result =
      Except.error (ClientError.notFound "999" "example.com") ∧
    ((emptyClient.store "example.com" [sampleRecord]).GetDnsRecordById
        "example.com" "999" (.error (.network "down"))).requests = [] := by
  have h := C5_get_by_id (emptyClient.store "example.com" [sampleRecord])
    "example.com" "999" (.error (.network "down"))
  refine ⟨?_, h.2 [sampleRecord] (by rfl)⟩
  have h1 := h.1 [sampleRecord] (by rfl)
  rw [h1]
  rfl

/-- Invalidating one domain leaves every other domain's entry alone. -/
theorem invalidate_other (c : CCPClient) (domainName d2 : String)
    (hne : d2 ≠ domainName) :
    (c.invalidate domainName).DnsRecordsByDomain d2 =
      c.DnsRecordsByDomain d2 := by
  simp [CCPClient.invalidate, hne]

/-- Storing under one domain leaves every other domain's entry alone. -/
theorem store_other (c : CCPClient) (domainName d2 : String)
    (records : List DnsRecord) (hne : d2 ≠ domainName) :
    (c.store domainName records).DnsRecordsByDomain d2 =
      c.DnsRecordsByDomain d2 := by
  simp [CCPClient.store, hne]

/-- `GetDnsRecords` touches no cache entry other than its domain's. -/
theorem getDnsRecords_frame (c : CCPClient) (domainName d2 : String)
    (tr : Except TransportError (Option DnsRecordsResponse))
    (hne : d2 ≠ domainName) :
    (c.GetDnsRecords domainName tr).client.DnsRecordsByDomain d2 =
      c.DnsRecordsByDomain d2 := by
  unfold CCPClient.GetDnsRecords
  split
  · rfl
  · split
    · rfl
    · rfl
    · exact store_other c domainName d2 _ hne

/-- `GetDnsRecordById` ends in the same client state as the underlying
`GetDnsRecords`. -/
theorem getDnsRecordById_client (c : CCPClient) (domainName id : String)
    (tr : Except TransportError (Option DnsRecordsResponse)) :
    (c.GetDnsRecordById domainName id tr).client =
      (c.GetDnsRecords domainName tr).client := by
  unfold CCPClient.GetDnsRecordById
  dsimp only
  split
  · rfl
  · split <;> rfl

/-- C6: a login transport failure, and likewise an undecodable login
response, makes `NewCCPClient` fail, so no client instance is returned.
(The Go code shadows `doRequest`'s error; a failed transport leaves a
nil body that never decodes, so both cases surface as the decode
error.) -/
theorem C6_construction_fails (customerNumber apiKey apiPassword : String)
    (e : TransportError) :
    NewCCPClient customerNumber apiKey apiPassword (.error e) =
      Except.error ClientError.decodeError ∧
    NewCCPClient customerNumber apiKey apiPassword (.ok none) =
      Except.error ClientError.decodeError :=
  ⟨rfl, rfl⟩

/-- C7 counterexample: a deletion whose transport succeeds (HTTP 200)
but whose body does not decode as a response envelope still returns
success — the response body is never decoded, contradicting the claim
that success requires a decodable envelope. -/
theorem C7_undecodable_body_counterexample :
    (emptyClient.DeleteDnsRecord "example.com" sampleRecord
        (.ok none)).result = Except.ok () := by
  rfl

/-- C7 (amended): `DeleteDnsRecord` issues one `updateDnsRecords`
request carrying a copy of the record with the deletion flag set true
(the input record value is passed along unchanged), and returns success
exactly when the transport call returns without error (a successful
HTTP status); the response body is never decoded or otherwise
validated. -/
theorem C7_delete_clone_and_transport (c : CCPClient)
    (domainName : String) (r : DnsRecord)
    (tr : Except TransportError (Option DnsRecordsResponse)) :
    ((c.DeleteDnsRecord domainName r tr).requests =
      [⟨"updateDnsRecords", .updateRecords c.authData domainName
          ⟨[{ r with DeleteRecord := true }]⟩⟩]) ∧
    ((c.DeleteDnsRecord domainName r tr).result = Except.ok () ↔
      ∃ ob, tr = Except.ok ob) := by
  unfold CCPClient.DeleteDnsRecord
  rcases tr with e | ob
  · exact ⟨rfl, by simp⟩
  · exact ⟨rfl, by simp⟩

/-- C8: on a decodable response, `UpdateDnsRecord` returns the first
response record whose id equals the input record's id — hence any
returned record carries the input's id — and fails with the
record-not-found error exactly when no response record has that id. -/
theorem C8_update_locates_by_id (c : CCPClient) (domainName : String)
    (record : DnsRecord) (res : DnsRecordsResponse) :
    ((c.UpdateDnsRecord domainName record (.ok (some res))).result =
      match res.ResponseData.DnsRecords.find? (fun r => r.Id == record.Id) with
      | some r => Except.ok r
      | none => Except.error (ClientError.recordNotFound record.Id)) ∧
    (∀ r, (c.UpdateDnsRecord domainName record (.ok (some res))).result =
        Except.ok r → r.Id = record.Id) ∧
    ((c.UpdateDnsRecord domainName record (.ok (some res))).result =
        Except.error (ClientError.recordNotFound record.Id) ↔
      ∀ r ∈ res.ResponseData.DnsRecords, r.Id ≠ record.Id) := by
  have h1 : (c.UpdateDnsRecord domainName record (.ok (some res))).result =
      match res.ResponseData.DnsRecords.find? (fun r => r.Id == record.Id) with
      | some r => Except.ok r
      | none => Except.error (ClientError.recordNotFound record.Id) := by
    simp only [CCPClient.UpdateDnsRecord, findRecordById_eq_find?]
    cases res.ResponseData.DnsRecords.find? (fun r => r.Id == record.Id) <;> rfl
  refine ⟨h1, ?_, ?_⟩
  · intro r hr
    rw [h1] at hr
    cases hf : res.ResponseData.DnsRecords.find? (fun r => r.Id == record.Id) with
    | none => rw [hf] at hr; exact absurd hr (by simp)
    | some a =>
      rw [hf] at hr
      have ha : a.Id = record.Id := by simpa using List.find?_some hf
      obtain rfl : a = r := by exact Except.ok.inj hr
      exact ha
  · rw [h1]
    cases hf : res.ResponseData.DnsRecords.find? (fun r => r.Id == record.Id) with
    | none =>
      simp only [List.find?_eq_none] at hf
      constructor
      · intro _ r hr
        have := hf r hr
        simpa using this
      · intro _
        rfl
    | some a =>
      have ha : a.Id = record.Id := by simpa using List.find?_some hf
      constructor
      · intro he
        exact absurd he (by simp)
      · intro hall
        exact absurd ha (hall a (List.mem_of_find?_eq_some hf))

/-- C8 witness: a reordered two-record response still yields the record
with the input's id, and a response lacking the id yields the
record-not-found error. -/
theorem C8_update_locates_by_id_witness :
    (emptyClient.UpdateDnsRecord "example.com" sampleRecord
        (.ok (some ⟨okBody, ⟨[sampleRecord2, sampleRecord]⟩⟩))).result =
      Except.ok sampleRecord ∧
    (emptyClient.UpdateDnsRecord "example.com" sampleRecord
        (.ok (some ⟨okBody, ⟨[sampleRecord2]⟩⟩))).result =
      Except.error (ClientError.recordNotFound sampleRecord.Id) := by
  constructor
  · have h := (C8_update_locates_by_id emptyClient "example.com"
      sampleRecord ⟨okBody, ⟨[sampleRecord2, sampleRecord]⟩⟩).1
    rw [h]
    rfl
  · exact (C8_update_locates_by_id emptyClient "example.com"
      sampleRecord ⟨okBody, ⟨[sampleRecord2]⟩⟩).2.2.mpr (by decide)

/-- C9: no operation inspects the envelope's `Status`/`StatusCode`: the
behaviour of `GetDnsRecords`, `login`, `CreateDnsRecord` and
`UpdateDnsRecord` is unchanged under replacing the envelope metadata,
and a decodable response with any (e.g. error) status is processed as
success — the record list (possibly empty) is cached and returned, and
the login response's (possibly empty) session id is stored. -/
theorem C9_envelope_status_ignored (c : CCPClient) (domainName : String)
    (n : NewDnsRecord) (r : DnsRecord) (rb rb2 : ResponseBody)
    (rd : DnsRecordSet) (sd : SessionData)
    (customerNumber apiKey apiPassword : String) :
    (c.GetDnsRecords domainName (.ok (some ⟨rb, rd⟩)) =
      c.GetDnsRecords domainName (.ok (some ⟨rb2, rd⟩))) ∧
    (c.login customerNumber apiKey apiPassword (.ok (some ⟨rb, sd⟩)) =
      c.login customerNumber apiKey apiPassword (.ok (some ⟨rb2, sd⟩))) ∧
    (c.CreateDnsRecord domainName n (.ok (some ⟨rb, rd⟩)) =
      c.CreateDnsRecord domainName n (.ok (some ⟨rb2, rd⟩))) ∧
    (c.UpdateDnsRecord domainName r (.ok (some ⟨rb, rd⟩)) =
      c.UpdateDnsRecord domainName r (.ok (some ⟨rb2, rd⟩))) ∧
    (c.DnsRecordsByDomain domainName = none →
      (c.GetDnsRecords domainName (.ok (some ⟨rb, rd⟩))).result =
        Except.ok rd.DnsRecords ∧
      (c.GetDnsRecords domainName
          (.ok (some ⟨rb, rd⟩))).client.DnsRecordsByDomain domainName =
        some rd.DnsRecords) ∧
    ((c.login customerNumber apiKey apiPassword
        (.ok (some ⟨rb, sd⟩))).result = Except.ok () ∧
      (c.login customerNumber apiKey apiPassword
          (.ok (some ⟨rb, sd⟩))).client.authData =
        ⟨customerNumber, apiKey, sd.SessionId⟩) := by
  refine ⟨?_, rfl, rfl, rfl, fun h => ?_, rfl, rfl⟩
  · unfold CCPClient.GetDnsRecords
    cases c.DnsRecordsByDomain domainName <;> rfl
  · rw [getDnsRecords_cache_miss_ok c domainName ⟨rb, rd⟩ h]
    exact ⟨rfl, store_self ..⟩

/-- C9 witness: a concrete error envelope (status `error`, statuscode
4013) is treated as success by a cache-miss `GetDnsRecords` and by
`login`. -/
theorem C9_envelope_status_ignored_witness :
    (emptyClient.GetDnsRecords "example.com"
        (.ok (some ⟨errBody, ⟨[sampleRecord]⟩⟩))).result =
      Except.ok [sampleRecord] ∧
    (emptyClient.login "12345" "key" "pw"
        (.ok (some ⟨errBody, ⟨""⟩⟩))).result = Except.ok () := by
  have h := C9_envelope_status_ignored emptyClient "example.com"
    ⟨"www", "A", "", "1.2.3.4"⟩ sampleRecord errBody okBody
    ⟨[sampleRecord]⟩ ⟨""⟩ "12345" "key" "pw"
  exact ⟨(h.2.2.2.2.1 (by rfl)).1, h.2.2.2.2.2.1⟩

/-- C10: every domain-parameterized operation leaves the cache entry of
every other domain unchanged, whatever the transport outcome. -/
theorem C10_other_domains_untouched (c : CCPClient)
    (domainName d2 : String) (hne : d2 ≠ domainName) (id : String)
    (n : NewDnsRecord) (r : DnsRecord)
    (tr : Except TransportError (Option DnsRecordsResponse)) :
    ((c.GetDnsRecords domainName tr).client.DnsRecordsByDomain d2 =
      c.DnsRecordsByDomain d2) ∧
    ((c.GetDnsRecordById domainName id tr).client.DnsRecordsByDomain d2 =
      c.DnsRecordsByDomain d2) ∧
    ((c.CreateDnsRecord domainName n tr).client.DnsRecordsByDomain d2 =
      c.DnsRecordsByDomain d2) ∧
    ((c.UpdateDnsRecord domainName r tr).client.DnsRecordsByDomain d2 =
      c.DnsRecordsByDomain d2) ∧
    ((c.DeleteDnsRecord domainName r tr).client.DnsRecordsByDomain d2 =
      c.DnsRecordsByDomain d2) := by
  refine ⟨getDnsRecords_frame c domainName d2 tr hne, ?_, ?_, ?_, ?_⟩
  · rw [getDnsRecordById_client]
    exact getDnsRecords_frame c domainName d2 tr hne
  · rw [createDnsRecord_client]
    exact invalidate_other c domainName d2 hne
  · rw [updateDnsRecord_client]
    exact invalidate_other c domainName d2 hne
  · rw [deleteDnsRecord_client]
    exact invalidate_other c domainName d2 hne

/-- C10 witness: a create on one domain leaves another domain's cached
list in place. -/
theorem C10_other_domains_untouched_witness :
    ((emptyClient.store "other.com" [sampleRecord2]).CreateDnsRecord
        "example.com" ⟨"www", "A", "", "1.2.3.4"⟩
        (.error (.network "down"))).client.DnsRecordsByDomain "other.com" =
      some [sampleRecord2] := by
  have h := (C10_other_domains_untouched
    (emptyClient.store "other.com" [sampleRecord2]) "example.com"
    "other.com" (by decide) "1" ⟨"www", "A", "", "1.2.3.4"⟩ sampleRecord
    (.error (.network "down"))).2.2.1
  rw [h]
  rfl

end NetcupDns
